import Mathlib

/-
  Verification development for the atlas-google-sheets-api repository.

  The repository is a Supabase edge function (two revisions of the same
  handler are present in the sources: `supabase/functions/
  update-colorworks-google-sheet/index.ts` and the unnamed revision
  `part_001`) plus a shared request validator
  (`supabase/functions/_shared/validate-request.ts`).

  The embedding below translates the deterministic request-processing
  pipeline of both handler revisions: JavaScript runtime values are
  modelled by the `JsVal` universe (with JS truthiness and property
  access), HTTP requests by `HRequest`, and each handler by a pure
  function from (environment, rate-limit table, clock, request) to
  (updated table, outcome), where the outcome is either a finished HTTP
  response or a "proceed to the spreadsheet sink" value carrying the
  resolved sheet id, tab name and row record.  External I/O (the Google
  Sheets client, Slack notification) is outside the embedding; the
  pipeline is modelled up to the point where it would be invoked.
-/

namespace AtlasSheets

/-- Universe of JavaScript runtime values as they occur in the handlers:
strings, numbers (the payloads only use integral numbers), booleans,
JSON objects (association lists, first occurrence of a key wins),
arrays, `null` and `undefined`. -/
inductive JsVal where
  | str (s : String)
  | num (n : Int)
  | bool (b : Bool)
  | obj (o : List (String × JsVal))
  | arr (l : List JsVal)
  | null
  | undefined

/-- Lookup of a property in an object's field list (JS property read). -/
def jsLookup : List (String × JsVal) → String → JsVal
  | [], _ => .undefined
  | (k, v) :: rest, key => if k = key then v else jsLookup rest key

/-- Property access `v.k`: defined on objects, `undefined` otherwise.
The handlers only perform such accesses behind truthiness or
optional-chaining guards, except where `jsGetEx` is used instead. -/
def jsGet (v : JsVal) (k : String) : JsVal :=
  match v with
  | .obj o => jsLookup o k
  | _ => .undefined

/-- Property access that models the JS `TypeError` thrown when reading a
property of `undefined` or `null` (used for the unguarded
`data.referralInfo.source` / `.moreInfo` reads in `part_001`). -/
def jsGetEx (v : JsVal) (k : String) : Except String JsVal :=
  match v with
  | .undefined => .error ("TypeError: Cannot read properties of undefined (reading " ++ k ++ ")")
  | .null => .error ("TypeError: Cannot read properties of null (reading " ++ k ++ ")")
  | .obj o => .ok (jsLookup o k)
  | _ => .ok .undefined

/-- JS truthiness: `""`, `0`, `false`, `null` and `undefined` are falsy. -/
def jsTruthy : JsVal → Bool
  | .str s => !(s == "")
  | .num n => !(n == 0)
  | .bool b => b
  | .obj _ => true
  | .arr _ => true
  | .null => false
  | .undefined => false

/-- JS `a || b` on values. -/
def jsOr (a b : JsVal) : JsVal := if jsTruthy a then a else b

/-- Key-presence test `k in v` (false on non-objects). -/
def jsHasKey (v : JsVal) (k : String) : Bool :=
  match v with
  | .obj o => (o.map Prod.fst).contains k
  | _ => false

/-- Whether `typeof v` is the string "object" (objects, arrays, null). -/
def jsIsObjectType : JsVal → Bool
  | .obj _ => true
  | .arr _ => true
  | .null => true
  | _ => false

/-- String conversion as performed by JS template literals. -/
def jsToString : JsVal → String
  | .str s => s
  | .num n => toString n
  | .bool b => if b then "true" else "false"
  | .obj _ => "[object Object]"
  | .arr _ => "Array"
  | .null => "null"
  | .undefined => "undefined"

/-- Element conversion used by `Array.prototype.join`: `null` and
`undefined` become the empty string. -/
def jsJoinElemStr : JsVal → String
  | .null => ""
  | .undefined => ""
  | v => jsToString v

/-- Join a list of strings with a separator (JS `Array.prototype.join`). -/
def joinSep (sep : String) : List String → String
  | [] => ""
  | [x] => x
  | x :: xs => x ++ sep ++ joinSep sep xs

/-- JS `array.join(sep)` on JS values. -/
def jsJoin (sep : String) (l : List JsVal) : String :=
  joinSep sep (l.map jsJoinElemStr)

/-- Boolean test that `pat` occurs at the start of `s` (on char lists). -/
def charsLeads : List Char → List Char → Bool
  | [], _ => true
  | _ :: _, [] => false
  | a :: as, b :: bs => a == b && charsLeads as bs

/-- Boolean test that `sub` occurs somewhere inside `s` (on char lists). -/
def charsHasSub (sub : List Char) : List Char → Bool
  | [] => charsLeads sub []
  | c :: rest => charsLeads sub (c :: rest) || charsHasSub sub rest

/-- JS `s.includes(sub)`: substring containment. -/
def strIncludes (s sub : String) : Bool :=
  charsHasSub sub.toList s.toList

/-- Accumulator loop for `strSplitChar`. -/
def splitCharAux (c : Char) (acc : List Char) : List Char → List String
  | [] => [String.mk acc.reverse]
  | x :: xs =>
      if x = c then String.mk acc.reverse :: splitCharAux c [] xs
      else splitCharAux c (x :: acc) xs

/-- JS `s.split(c)` for a single-character separator: split at every
occurrence, keeping empty pieces (so `"" ↦ [""]`). -/
def strSplitChar (s : String) (c : Char) : List String :=
  splitCharAux c [] s.toList

/-- Model of the incoming HTTP request, as far as the handlers inspect
it: method, the three headers that are read, and the request body as
parsed JSON top-level object (`none` models a JSON parse failure). -/
structure HRequest where
  method : String
  contentType : Option String
  authHeader : Option String
  xForwardedFor : Option String
  body : Option (List (String × JsVal))

/-- Outcome of `validateRequest`: success, or a rejection response with
an HTTP status and a JSON error message. -/
inductive VResult where
  | okR
  | rejected (status : Nat) (error : String)
deriving DecidableEq, Repr

/-- Embedding of `_shared/validate-request.ts` `validateRequest`.
`apiKey` models `Deno.env.get("SUPABASE_ANON_KEY")`; header getters
default missing (or empty, which JS truthiness conflates with missing
for the authorization check) values exactly as the source does. -/
def validateRequest (apiKey : Option String) (req : HRequest) : VResult :=
  if !(strIncludes (req.contentType.getD "") "application/json") then
    .rejected 400 "Content-Type must be application/json"
  else if req.method ≠ "POST" then
    .rejected 405 "Method not allowed"
  else if req.authHeader.getD "" = "" then
    .rejected 401 "Missing authorization header"
  else if (strSplitChar (req.authHeader.getD "") ' ').length ≠ 2 ∨
      (strSplitChar (req.authHeader.getD "") ' ').headD "" ≠ "Bearer" then
    .rejected 401 "Invalid authorization format"
  else
    match apiKey with
    | none => .rejected 401 "Invalid authorization token"
    | some key =>
        if key = "" ∨ (strSplitChar (req.authHeader.getD "") ' ').getD 1 "" ≠ key then
          .rejected 401 "Invalid authorization token"
        else .okR

/-- Number of requests allowed per window (`RATE_LIMIT_NUM`). -/
def RATE_LIMIT_NUM : Nat := 10

/-- Window length in milliseconds (`RATE_LIMIT_WINDOW_MS`). -/
def RATE_LIMIT_WINDOW_MS : Nat := 60000

/-- Entry of the `ipRequestMap`: request count and window-reset time. -/
structure RateEntry where
  count : Nat
  resetTime : Nat
deriving DecidableEq, Repr

/-- The `ipRequestMap`, modelled as a partial map from client
identifiers to entries. -/
def RateMap : Type := String → Option RateEntry

/-- The rate-limit update both handlers perform on every non-OPTIONS
request: take the stored entry (defaulting to count 0 with a fresh
reset time), reset the counter to 1 when the wall clock has passed the
stored reset time, otherwise increment it. -/
def rateUpdate (st : RateMap) (ip : String) (now : Nat) : RateEntry :=
  let ipData := (st ip).getD ⟨0, now + RATE_LIMIT_WINDOW_MS⟩
  if now > ipData.resetTime then
    ⟨1, now + RATE_LIMIT_WINDOW_MS⟩
  else
    ⟨ipData.count + 1, ipData.resetTime⟩

/-- Store an entry back into the map (`ipRequestMap.set`). -/
def rateSet (st : RateMap) (ip : String) (e : RateEntry) : RateMap :=
  fun k => if k = ip then some e else st k

/-- Run a sequence of requests from one client through the rate
limiter, recording for each whether it passed (request not answered
with 429, i.e. the updated count does not exceed `RATE_LIMIT_NUM`). -/
def rateRun : RateMap → String → List Nat → RateMap × List Bool
  | st, _, [] => (st, [])
  | st, ip, t :: ts =>
      let e := rateUpdate st ip t
      let st' := rateSet st ip e
      let rest := rateRun st' ip ts
      (rest.1, (decide (e.count ≤ RATE_LIMIT_NUM)) :: rest.2)

/-- Shared response shape for both handlers: either a success response
or an error response.  `receivedParams` models the extra
`receivedParams` field some 400 responses carry; headers are not
modelled. -/
inductive HResponse where
  | okResp (message : String)
  | errResp (status : Nat) (error : String) (receivedParams : Option (List String))
deriving DecidableEq, Repr

namespace IndexTs

/-- Outcome of the `index.ts` handler up to the spreadsheet sink:
either a finished HTTP response, or a proceed value carrying the sheet
id, destination tab and the row record handed to `sheet.addRows`. -/
inductive IResult where
  | finished (r : HResponse)
  | proceed (sheetId : String) (tabName : String) (row : List (String × JsVal))

/-- HTTP status of a finished outcome (200 for the success response);
`none` when the pipeline proceeds to the sink. -/
def IResult.statusOf : IResult → Option Nat
  | .finished (.errResp s _ _) => some s
  | .finished (.okResp _) => some 200
  | .proceed _ _ _ => none

/-- Bulk-assessment row built by `index.ts` (lines 356-363); `nowIso`
models `new Date().toISOString()` and the "Date" column takes its part
before the first T, as `timestamp.split('T')[0]` does. -/
def bulkRow (data : JsVal) (nowIso : String) : List (String × JsVal) :=
  [ ("Date", .str ((strSplitChar nowIso 'T').headD "")),
    ("Name", jsGet data "name"),
    ("Email", jsGet data "email"),
    ("Phone Number", jsGet data "phoneNumber"),
    ("Number of Assessments", jsGet data "numberOfAssessments"),
    ("Submission Date", .str nowIso) ]

/-- Event-date formatting inlined in the live-event branch of
`index.ts` (lines 394-402): falsy dates give the empty string, string
dates pass through, and the object form is joined with " to ". -/
def formatEventDateIx (eventDate : JsVal) : String :=
  if !(jsTruthy eventDate) then ""
  else
    match eventDate with
    | .str s => s
    | v => jsToString (jsGet v "startDate") ++ " to " ++ jsToString (jsGet v "endDate")

/-- The `eventData.budget?.toString() || ""` cell of the live-event row. -/
def budgetCellIx (budget : JsVal) : JsVal :=
  match budget with
  | .num n => jsOr (.str (toString n)) (.str "")
  | .str s => jsOr (.str s) (.str "")
  | .bool b => jsOr (.str (if b then "true" else "false")) (.str "")
  | _ => .str ""

/-- The `desiredFormats` cell: joined with ", " when an array, else "". -/
def arrayJoinCell (v : JsVal) : String :=
  match v with
  | .arr l => jsJoin ", " l
  | _ => ""

/-- The `specialEventInfo?.eventTypes?.join(", ") || ""` cell. -/
def optArrayJoinCell (v : JsVal) : String :=
  match v with
  | .arr l => jsJoin ", " l
  | _ => ""

/-- Live-event row built by `index.ts` (lines 425-449). -/
def liveRow (data : JsVal) (nowIso : String) : List (String × JsVal) :=
  let sei := jsGet data "specialEventInfo"
  let li := jsGet data "locationInfo"
  let ri := jsGet data "referralInfo"
  [ ("Name", jsGet data "name"),
    ("Email", jsGet data "email"),
    ("Phone Number", jsGet data "phoneNumber"),
    ("Job Title", jsOr (jsGet data "jobTitle") (.str "")),
    ("Organization", jsOr (jsGet data "organizationName") (.str "")),
    ("Website", jsOr (jsGet data "websiteUrl") (.str "")),
    ("Estimated Attendees", jsGet data "estimatedAttendees"),
    ("Content Type", jsOr (jsGet data "desiredContentType") (.str "")),
    ("Duration", jsOr (jsGet data "desiredDuration") (.str "")),
    ("Event Formats", .str (arrayJoinCell (jsGet data "desiredFormats"))),
    ("Event Group Type", jsOr (jsGet sei "type") (.str "")),
    ("Event Types", .str (optArrayJoinCell (jsGet sei "eventTypes"))),
    ("Custom Event Type", jsOr (jsGet sei "userDefinedEventType") (.str "")),
    ("Location Type", jsOr (jsGet li "type") (.str "")),
    ("City", jsOr (jsGet li "city") (.str "")),
    ("State", jsOr (jsGet li "state") (.str "")),
    ("Location Name", jsOr (jsGet li "locationName") (.str "")),
    ("Budget", budgetCellIx (jsGet data "budget")),
    ("Event Date", .str (formatEventDateIx (jsGet data "eventDate"))),
    ("Interested In Bulk Assessments",
      .str (match jsGet data "interestedInBulkAssessments" with
            | .bool true => "Yes"
            | _ => "No")),
    ("Referral Source", jsOr (jsGet ri "source") (.str "")),
    ("Referral Info", jsOr (jsGet ri "moreInfo") (.str "")),
    ("Submission Date", .str nowIso) ]

/-- Required fields of the bulk-assessment branch in `index.ts`. -/
def bulkRequiredFields : List String :=
  ["name", "email", "phoneNumber", "numberOfAssessments"]

/-- Required fields of the live-event branch in `index.ts`. -/
def liveRequiredFields : List String :=
  ["name", "email", "phoneNumber", "estimatedAttendees"]

/-- Data-type dispatch of `index.ts` (lines 318-464): required-field
check per branch, then row construction; any other `dataType` yields
the 400 "Unknown data type" response. -/
def processData (sheetId : String) (nowIso : String) (data : JsVal) : IResult :=
  match jsGet data "dataType" with
  | .str "bulk-assessment" =>
      if (bulkRequiredFields.filter (fun f => !(jsHasKey data f))).length > 0 then
        .finished (.errResp 400
          ("Missing required fields: " ++
            joinSep ", " (bulkRequiredFields.filter (fun f => !(jsHasKey data f)))) none)
      else
        .proceed sheetId "Bulk Assessments" (bulkRow data nowIso)
  | .str "live-event" =>
      if (liveRequiredFields.filter (fun f => !(jsHasKey data f))).length > 0 then
        .finished (.errResp 400
          ("Missing required fields: " ++
            joinSep ", " (liveRequiredFields.filter (fun f => !(jsHasKey data f)))) none)
      else
        .proceed sheetId "Live Events" (liveRow data nowIso)
  | v => .finished (.errResp 400 ("Unknown data type: " ++ jsToString v) none)

/-- Environment variables consumed by the `index.ts` handler. -/
structure Env where
  anonKey : Option String
  colorworksSheetId : Option String

/-- Stage of `index.ts` after a successful `validateRequest`: JSON
parse check, `data` presence check (400 listing the received top-level
keys), sheet-id configuration check (500 when the variable is unset or
empty, since `if (!colorworksSheetId)` tests JS falsiness, conflating
the two exactly as the `getD ""` default does), then dispatch. -/
def postValidate (env : Env) (nowIso : String) (req : HRequest) : IResult :=
  match req.body with
  | none => .finished (.errResp 400 "Invalid JSON in request body" none)
  | some body =>
      if !(jsTruthy (jsLookup body "data")) then
        .finished (.errResp 400 "Missing required property: data" (some (body.map Prod.fst)))
      else if env.colorworksSheetId.getD "" = "" then
        .finished (.errResp 500 "Server configuration error: Missing sheet ID" none)
      else
        processData (env.colorworksSheetId.getD "") nowIso (jsLookup body "data")

/-- Full pre-sink pipeline of the `index.ts` handler: OPTIONS
short-circuit, rate-limit update and check, request validation, then
`postValidate`.  Returns the updated `ipRequestMap` together with the
outcome. -/
def handle (env : Env) (st : RateMap) (now : Nat) (nowIso : String) (req : HRequest) :
    RateMap × IResult :=
  if req.method = "OPTIONS" then (st, .finished (.okResp "ok"))
  else
    let clientIp := req.xForwardedFor.getD "unknown"
    let ipData := rateUpdate st clientIp now
    let st' := rateSet st clientIp ipData
    (st',
      if ipData.count > RATE_LIMIT_NUM then
        .finished (.errResp 429 "Too many requests, please try again later" none)
      else
        match validateRequest env.anonKey req with
        | .rejected s m => .finished (.errResp s m none)
        | .okR => postValidate env nowIso req)

end IndexTs

namespace Part001

/-- Destination tab for bulk assessments (`BULK_ASSESSMENT_TAB`). -/
def BULK_ASSESSMENT_TAB : String := "Bulk Assessments"

/-- Destination tab for live events (`LIVE_EVENT_TAB`). -/
def LIVE_EVENT_TAB : String := "Live Events"

/-- Destination tab for user signups (`USER_SIGNUP_TAB`). -/
def USER_SIGNUP_TAB : String := "User Signups"

/-- Canonical header list for the bulk-assessment sheet
(`BULK_ASSESSMENT_HEADERS`). -/
def BULK_ASSESSMENT_HEADERS : List String :=
  ["Name", "Email", "Phone Number", "Number of Assessments", "Submission Date"]

/-- Canonical header list for the live-event sheet
(`LIVE_EVENT_HEADERS`). -/
def LIVE_EVENT_HEADERS : List String :=
  [ "Name", "Email", "Phone Number", "Job Title", "Organization", "Website",
    "Estimated Attendees", "Content Type", "Duration", "Event Formats",
    "Event Group Type", "Event Types", "Custom Event Type", "Location Type",
    "City", "State", "Location Name", "Budget", "Event Date",
    "Interested In Bulk Assessments", "Referral Source", "Referral Info", "Submission Date" ]

/-- Canonical header list for the user-signup sheet
(`USER_SIGNUP_HEADERS`). -/
def USER_SIGNUP_HEADERS : List String :=
  ["Email", "First Name", "Last Name", "Created Date", "Signup Date"]

/-- Embedding of `formatEventDate` (part_001 lines 221-226): falsy
dates give the empty string, string dates pass through, and the
`{startDate, endDate}` form is rendered with a " - " separator. -/
def formatEventDate (eventDate : JsVal) : String :=
  if !(jsTruthy eventDate) then ""
  else
    match eventDate with
    | .str s => s
    | v => jsToString (jsGet v "startDate") ++ " - " ++ jsToString (jsGet v "endDate")

/-- Embedding of `formatBulkAssessmentData` (part_001 lines 264-272);
the function is applied to the untyped request `data` object (the
TypeScript cast is erased at runtime), so fields are read with JS
property-access semantics.  `nowIso` models `new Date().toISOString()`. -/
def formatBulkAssessmentData (data : JsVal) (nowIso : String) : List (String × JsVal) :=
  [ ("Name", jsGet data "name"),
    ("Email", jsGet data "email"),
    ("Phone Number", jsGet data "phoneNumber"),
    ("Number of Assessments", jsGet data "numberOfAssessments"),
    ("Submission Date", .str nowIso) ]

/-- The `'city' in data.locationInfo ? data.locationInfo.city : ''`
pattern of part_001 (guarded by `data.locationInfo &&`). -/
def locationCell (li : JsVal) (k : String) : JsVal :=
  if jsTruthy li && jsHasKey li k then jsGet li k else .str ""

/-- Embedding of `formatLiveEventData` (part_001 lines 277-306).  The
two `data.referralInfo.source` / `.moreInfo` reads are not guarded in
the source, so a missing `referralInfo` raises a JS `TypeError`
(propagated to the handler's catch-all 500); this is modelled with
`Except`. -/
def formatLiveEventData (data : JsVal) (nowIso : String) :
    Except String (List (String × JsVal)) :=
  let sei := jsGet data "specialEventInfo"
  let li := jsGet data "locationInfo"
  match jsGetEx (jsGet data "referralInfo") "source",
        jsGetEx (jsGet data "referralInfo") "moreInfo" with
  | .error e, _ => .error e
  | _, .error e => .error e
  | .ok rSource, .ok rMore =>
      .ok
        [ ("Name", jsGet data "name"),
          ("Email", jsGet data "email"),
          ("Phone Number", jsGet data "phoneNumber"),
          ("Job Title", jsGet data "jobTitle"),
          ("Organization", jsGet data "organizationName"),
          ("Website", jsGet data "websiteUrl"),
          ("Estimated Attendees", jsGet data "estimatedAttendees"),
          ("Content Type", jsOr (jsGet data "desiredContentType") (.str "")),
          ("Duration", jsOr (jsGet data "desiredDuration") (.str "")),
          ("Event Formats",
            .str (match jsGet data "desiredFormats" with
                  | .arr l => jsJoin ", " l
                  | _ => "")),
          ("Event Group Type", jsOr (jsGet sei "type") (.str "")),
          ("Event Types",
            .str (match jsGet sei "eventTypes" with
                  | .arr l => jsJoin ", " l
                  | _ => "")),
          ("Custom Event Type", jsOr (jsGet sei "userDefinedEventType") (.str "")),
          ("Location Type", jsOr (jsGet li "type") (.str "")),
          ("City", locationCell li "city"),
          ("State", locationCell li "state"),
          ("Location Name", locationCell li "locationName"),
          ("Budget", jsOr (jsGet data "budget") (.str "")),
          ("Event Date", .str (formatEventDate (jsGet data "eventDate"))),
          ("Interested In Bulk Assessments",
            .str (if jsTruthy (jsGet data "interestedInBulkAssessments") then "Yes" else "No")),
          ("Referral Source", rSource),
          ("Referral Info", rMore),
          ("Submission Date", .str nowIso) ]

/-- Embedding of `formatUserSignupData` (part_001 lines 311-319). -/
def formatUserSignupData (data : JsVal) (nowIso : String) : List (String × JsVal) :=
  [ ("Email", jsGet data "email"),
    ("First Name", jsOr (jsGet data "firstName") (.str "")),
    ("Last Name", jsOr (jsGet data "lastName") (.str "")),
    ("Created Date", jsGet data "createdDate"),
    ("Signup Date", .str nowIso) ]

/-- Outcome of the part_001 handler up to the spreadsheet sink.  A
proceed value carries the resolved sheet id (a JS value: the request's
or the configured default), the tab name, the canonical header list
handed to `ensureSheetHasHeaders` (empty in the legacy branch), and the
row value handed to `addRows`. -/
inductive PResult where
  | finished (r : HResponse)
  | proceed (sheetId : JsVal) (tabName : JsVal) (headers : List String) (row : JsVal)

/-- Data-shape checks and data-type dispatch of part_001 (lines
384-433): `data` must be a truthy value of JS type "object"; a present
`dataType` key selects one of the three variants (any other value
yields the 400 "Invalid data type" response, with no required-field
check in any branch); an absent `dataType` key selects the legacy
`tabName`/`values` branch. -/
def dataStage (sheetId : JsVal) (nowIso : String) (body : List (String × JsVal)) : PResult :=
  if !(jsTruthy (jsLookup body "data") && jsIsObjectType (jsLookup body "data")) then
    .finished (.errResp 400 "Missing or invalid parameter: data should be an object" none)
  else if jsHasKey (jsLookup body "data") "dataType" then
    match jsGet (jsLookup body "data") "dataType" with
    | .str "bulk-assessment" =>
        .proceed sheetId (.str BULK_ASSESSMENT_TAB) BULK_ASSESSMENT_HEADERS
          (.obj (formatBulkAssessmentData (jsLookup body "data") nowIso))
    | .str "live-event" =>
        match formatLiveEventData (jsLookup body "data") nowIso with
        | .ok row => .proceed sheetId (.str LIVE_EVENT_TAB) LIVE_EVENT_HEADERS (.obj row)
        | .error e =>
            .finished (.errResp 500
              ("Unexpected error in update-colorworks-google-sheet function: " ++ e) none)
    | .str "user-signup" =>
        .proceed sheetId (.str USER_SIGNUP_TAB) USER_SIGNUP_HEADERS
          (.obj (formatUserSignupData (jsLookup body "data") nowIso))
    | _ => .finished (.errResp 400 "Invalid data type" none)
  else
    .proceed sheetId (jsGet (jsLookup body "data") "tabName") []
      (jsGet (jsLookup body "data") "values")

/-- Environment variables consumed by the part_001 handler. -/
structure Env where
  anonKey : Option String
  defaultSheetId : Option String

/-- The `DEFAULT_SHEET_ID` environment value as a JS value. -/
def defaultSheetVal (env : Env) : JsVal :=
  match env.defaultSheetId with
  | some s => .str s
  | none => .undefined

/-- Stage of part_001 after a successful `validateRequest` (lines
365-433): JSON parse (a failure propagates to the catch-all 500),
sheet-id resolution `requestSheetId || DEFAULT_SHEET_ID` with a 400
when the result is falsy, then `dataStage`. -/
def postValidate (env : Env) (nowIso : String) (req : HRequest) : PResult :=
  match req.body with
  | none =>
      .finished (.errResp 500
        "Unexpected error in update-colorworks-google-sheet function: invalid JSON in request body"
        none)
  | some body =>
      if !(jsTruthy (jsOr (jsLookup body "sheetId") (defaultSheetVal env))) then
        .finished (.errResp 400
          "No sheet ID provided in request and no default sheet ID configured in environment"
          none)
      else dataStage (jsOr (jsLookup body "sheetId") (defaultSheetVal env)) nowIso body

/-- Full pre-sink pipeline of the part_001 handler (lines 321-433):
OPTIONS short-circuit, rate-limit update and check, request
validation, then `postValidate`. -/
def handle (env : Env) (st : RateMap) (now : Nat) (nowIso : String) (req : HRequest) :
    RateMap × PResult :=
  if req.method = "OPTIONS" then (st, .finished (.okResp "ok"))
  else
    let clientIp := req.xForwardedFor.getD "unknown"
    let ipData := rateUpdate st clientIp now
    let st' := rateSet st clientIp ipData
    (st',
      if ipData.count > RATE_LIMIT_NUM then
        .finished (.errResp 429 "Too many requests, please try again later" none)
      else
        match validateRequest env.anonKey req with
        | .rejected s m => .finished (.errResp s m none)
        | .okR => postValidate env nowIso req)

end Part001

/-- Cell grid of a worksheet, as far as `ensureSheetHasHeaders` reads
and writes it: a total assignment of a string value to every (row,
column) position, with the empty string standing for an empty cell
(the source's emptiness test `!firstCell.value` is JS falsiness on the
cell value). -/
def SheetCells : Type := Nat → Nat → String

/-- Write one cell (`sheet.getCell(r, c).value = v`). -/
def setCell (s : SheetCells) (r c : Nat) (v : String) : SheetCells :=
  fun i j => if i = r ∧ j = c then v else s i j

/-- The header-writing loop of `ensureSheetHasHeaders`: write
`headers[k]` into cell (0, i+k) for every k. -/
def writeHeadersFrom (s : SheetCells) (i : Nat) : List String → SheetCells
  | [] => s
  | h :: t => writeHeadersFrom (setCell s 0 i h) (i + 1) t

/-- Embedding of `ensureSheetHasHeaders` (part_001 lines 231-259): if
cell (0,0) is empty, write the header list into row 0 and save;
otherwise leave the sheet untouched. -/
def ensureSheetHasHeaders (s : SheetCells) (headers : List String) : SheetCells :=
  if s 0 0 = "" then writeHeadersFrom s 0 headers else s

/-- Restricted JSON document universe for the credential
configuration: a top-level JSON string, or a JSON object whose fields
are strings (the shape of a service-account key file).  A double-
encoded configuration is a `jstr` whose content is an encoded `jobj`. -/
inductive CredJson where
  | jstr (s : String)
  | jobj (fields : List (String × String))
deriving DecidableEq, Repr

/-- JSON string-character escaping as produced by `JSON.stringify` for
the quote, backslash and the common control characters. -/
def escapeChar (c : Char) : List Char :=
  if c = '"' then ['\\', '"']
  else if c = '\\' then ['\\', '\\']
  else if c = '\n' then ['\\', 'n']
  else if c = '\r' then ['\\', 'r']
  else if c = '\t' then ['\\', 't']
  else [c]

/-- Escape every character of a string body. -/
def escapeChars : List Char → List Char
  | [] => []
  | c :: cs => escapeChar c ++ escapeChars cs

/-- Characters of an encoded field list, without the surrounding
braces: `"k":"v"` pairs joined by commas. -/
def encodeFieldsChars : List (String × String) → List Char
  | [] => []
  | [(k, v)] =>
      '"' :: escapeChars k.toList ++ '"' :: ':' :: '"' :: escapeChars v.toList ++ ['"']
  | (k, v) :: rest =>
      '"' :: escapeChars k.toList ++ '"' :: ':' :: '"' :: escapeChars v.toList ++
        '"' :: ',' :: encodeFieldsChars rest

/-- Model of `JSON.stringify` on the restricted universe. -/
def encodeCredJson : CredJson → String
  | .jstr s => String.mk ('"' :: escapeChars s.toList ++ ['"'])
  | .jobj fields => String.mk ('\x7b' :: encodeFieldsChars fields ++ ['\x7d'])

/-- The inverse of `escapeChar` on the escaped character. -/
def unescapeChar (c : Char) : Option Char :=
  if c = '"' then some '"'
  else if c = '\\' then some '\\'
  else if c = 'n' then some '\n'
  else if c = 'r' then some '\r'
  else if c = 't' then some '\t'
  else none

/-- Parse the body of a JSON string up to its closing quote, returning
the decoded content and the remaining input. -/
def parseStringBody : List Char → Option (List Char × List Char)
  | [] => none
  | '"' :: rest => some ([], rest)
  | '\\' :: [] => none
  | '\\' :: c :: rest =>
      match unescapeChar c with
      | none => none
      | some d =>
          match parseStringBody rest with
          | none => none
          | some (s, r) => some (d :: s, r)
  | c :: rest =>
      if c = '\\' then none
      else
        match parseStringBody rest with
        | none => none
        | some (s, r) => some (c :: s, r)

/-- Parse the field list of a JSON object after the opening brace,
consuming the closing brace; `fuel` bounds the number of fields. -/
def parseFields : Nat → List Char → Option (List (String × String) × List Char)
  | 0, _ => none
  | _ + 1, [] => none
  | fuel + 1, c :: rest =>
      if c = '\x7d' then some ([], rest)
      else if c = '"' then
        match parseStringBody rest with
        | none => none
        | some (k, r1) =>
            match r1 with
            | ':' :: '"' :: r2 =>
                match parseStringBody r2 with
                | none => none
                | some (v, r3) =>
                    match r3 with
                    | ',' :: r4 =>
                        match parseFields fuel r4 with
                        | none => none
                        | some (fs, r5) => some ((String.mk k, String.mk v) :: fs, r5)
                    | c2 :: r4 =>
                        if c2 = '\x7d' then some ([(String.mk k, String.mk v)], r4)
                        else none
                    | [] => none
            | _ => none
      else none

/-- Model of `JSON.parse` on the restricted universe: a full-input
parse of a top-level string or string-fielded object. -/
def jsonParse (s : String) : Option CredJson :=
  match s.toList with
  | '"' :: rest =>
      match parseStringBody rest with
      | some (cs, []) => some (.jstr (String.mk cs))
      | _ => none
  | '\x7b' :: rest =>
      match parseFields (rest.length + 1) rest with
      | some (fs, []) => some (.jobj fs)
      | _ => none
  | _ => none

/-- First-occurrence field lookup, modelling the `credentials.client_email`
property reads on the parsed object. -/
def lookupField : List (String × String) → String → Option String
  | [], _ => none
  | (k, v) :: rest, key => if k = key then some v else lookupField rest key

/-- Resolved credential pair. -/
structure Creds where
  client_email : String
  private_key : String
deriving DecidableEq, Repr

/-- Field extraction and the required-field check of
`getServiceAccountCreds`: property reads on a string value yield
`undefined`, and `!credentials.client_email || !credentials.private_key`
rejects missing or empty fields. -/
def extractCreds : CredJson → Option Creds
  | .jstr _ => none
  | .jobj fields =>
      match lookupField fields "client_email", lookupField fields "private_key" with
      | some e, some k => if e = "" ∨ k = "" then none else some ⟨e, k⟩
      | _, _ => none

/-- Embedding of the environment-variable branch of
`getServiceAccountCreds` (index.ts lines 94-113, part_001 lines
164-183, identical in both revisions; the base64 branch is bypassed
when that variable is unset): parse the raw configuration, parse a
second time when the first result is itself a string (double
encoding), then extract and check the credential fields.  `none`
models falling through to the regex last resort. -/
def resolveEnvCreds (raw : String) : Option Creds :=
  match jsonParse raw with
  | none => none
  | some (.jstr s) =>
      match jsonParse s with
      | none => none
      | some j2 => extractCreds j2
  | some j => extractCreds j

theorem charsLeads_append_self (xs ys : List Char) : charsLeads xs (xs ++ ys) = true := by
  induction xs with
  | nil => rfl
  | cons a as ih => simp [charsLeads, ih]

theorem charsHasSub_of_leads {sub s : List Char} (h : charsLeads sub s = true) :
    charsHasSub sub s = true := by
  cases s with
  | nil => simpa [charsHasSub] using h
  | cons c rest => simp [charsHasSub, h]

theorem charsHasSub_append_left (xs : List Char) {ys sub : List Char}
    (h : charsHasSub sub ys = true) : charsHasSub sub (xs ++ ys) = true := by
  induction xs with
  | nil => simpa using h
  | cons c cs ih => simp [charsHasSub, ih]

theorem str_toList_append (a b : String) : (a ++ b).toList = a.toList ++ b.toList := rfl

theorem strIncludes_append_right (a : String) {b sub : String}
    (h : strIncludes b sub = true) : strIncludes (a ++ b) sub = true := by
  unfold strIncludes at h ⊢
  rw [str_toList_append]
  exact charsHasSub_append_left _ h

theorem strIncludes_self_append (a b : String) : strIncludes (a ++ b) a = true := by
  unfold strIncludes
  rw [str_toList_append]
  exact charsHasSub_of_leads (charsLeads_append_self _ _)

theorem strIncludes_self (a : String) : strIncludes a a = true := by
  have h := strIncludes_self_append a ""
  simpa using h

theorem joinSep_mem_includes {f : String} {l : List String} (sep : String) (h : f ∈ l) :
    strIncludes (joinSep sep l) f = true := by
  induction l with
  | nil => cases h
  | cons x xs ih =>
      rcases List.mem_cons.mp h with rfl | hm
      · cases xs with
        | nil => simpa [joinSep] using strIncludes_self f
        | cons y ys =>
            show strIncludes (f ++ sep ++ joinSep sep (y :: ys)) f = true
            rw [String.append_assoc]
            exact strIncludes_self_append f _
      · cases xs with
        | nil => cases hm
        | cons y ys =>
            show strIncludes (x ++ sep ++ joinSep sep (y :: ys)) f = true
            exact strIncludes_append_right _ (ih hm)

/-- C5: `validateRequest` performs exactly five checks in order,
short-circuiting on the first failure: Content-Type not containing
"application/json" gives 400; method other than POST gives 405;
missing Authorization gives 401; an Authorization value not of the
shape of exactly two space-separated parts with the first literally
"Bearer" gives 401; a token different from the configured shared
secret gives 401; and a request passing all five checks succeeds. -/
theorem C5_validate_request_checks (apiKey : Option String) (req : HRequest) :
    (strIncludes (req.contentType.getD "") "application/json" = false →
      validateRequest apiKey req = .rejected 400 "Content-Type must be application/json")
    ∧ (strIncludes (req.contentType.getD "") "application/json" = true →
        req.method ≠ "POST" →
        validateRequest apiKey req = .rejected 405 "Method not allowed")
    ∧ (strIncludes (req.contentType.getD "") "application/json" = true →
        req.method = "POST" → req.authHeader.getD "" = "" →
        validateRequest apiKey req = .rejected 401 "Missing authorization header")
    ∧ (strIncludes (req.contentType.getD "") "application/json" = true →
        req.method = "POST" → req.authHeader.getD "" ≠ "" →
        ((strSplitChar (req.authHeader.getD "") ' ').length ≠ 2 ∨
          (strSplitChar (req.authHeader.getD "") ' ').headD "" ≠ "Bearer") →
        validateRequest apiKey req = .rejected 401 "Invalid authorization format")
    ∧ (∀ token key,
        strIncludes (req.contentType.getD "") "application/json" = true →
        req.method = "POST" →
        strSplitChar (req.authHeader.getD "") ' ' = ["Bearer", token] →
        apiKey = some key → key ≠ "" → token ≠ key →
        validateRequest apiKey req = .rejected 401 "Invalid authorization token")
    ∧ (∀ token,
        strIncludes (req.contentType.getD "") "application/json" = true →
        req.method = "POST" →
        strSplitChar (req.authHeader.getD "") ' ' = ["Bearer", token] →
        apiKey = some token → token ≠ "" →
        validateRequest apiKey req = .okR) := by
  have hsplit_ne : ∀ (a : String) t, strSplitChar a ' ' = ["Bearer", t] → a ≠ "" := by
    intro a t hs ha
    rw [ha] at hs
    have hsplit0 : strSplitChar "" ' ' = [""] := rfl
    rw [hsplit0] at hs
    injection hs with hhead _
    exact absurd hhead (by decide)
  refine ⟨?_, ?_, ?_, ?_, ?_, ?_⟩
  · intro h1
    simp [validateRequest, h1]
  · intro h1 h2
    simp [validateRequest, h1, h2]
  · intro h1 h2 h3
    simp [validateRequest, h1, h2, h3]
  · intro h1 h2 h3 h4
    rw [List.headD_eq_head?] at h4
    rcases h4 with h4 | h4 <;> simp [validateRequest, h1, h2, h3, h4]
  · intro t key h1 h2 h3 h4 h5 h6
    have ha := hsplit_ne _ _ h3
    simp [validateRequest, h1, h2, ha, h3, h4, h5, h6]
  · intro t h1 h2 h3 h4 h5
    have ha := hsplit_ne _ _ h3
    simp [validateRequest, h1, h2, ha, h3, h4, h5]

/-- Concrete instantiation of the C5 theorem: a request with matching
bearer token passes validation. -/
theorem C5_witness :
    strIncludes
      ((some "application/json" : Option String).getD "") "application/json" = true ∧
    strSplitChar "Bearer secret" ' ' = ["Bearer", "secret"] ∧
    validateRequest (some "secret")
      ⟨"POST", some "application/json", some "Bearer secret", none, none⟩ = .okR := by
  refine ⟨by decide, by decide, ?_⟩
  exact (C5_validate_request_checks (some "secret")
      ⟨"POST", some "application/json", some "Bearer secret", none, none⟩).2.2.2.2.2
    "secret" (by decide) rfl (by decide) rfl (by decide)

/-- C3 (amended): in the part_001 normalizer, an `eventDate` supplied
as a plain string appears unchanged as the "Event Date" value, an
object with string `startDate`/`endDate` fields renders as
"<startDate> - <endDate>", and an absent `eventDate` yields the empty
string; the index.ts revision instead joins the object form with
" to " (see the counterexample). -/
theorem C3_format_event_date :
    (∀ s : String, Part001.formatEventDate (.str s) = s)
    ∧ (∀ a b : String,
        Part001.formatEventDate (.obj [("startDate", .str a), ("endDate", .str b)]) =
          a ++ " - " ++ b)
    ∧ Part001.formatEventDate .undefined = "" := by
  refine ⟨?_, ?_, rfl⟩
  · intro s
    by_cases hs : s = "" <;>
      simp [Part001.formatEventDate, jsTruthy, hs]
  · intro a b
    simp [Part001.formatEventDate, jsTruthy, jsGet, jsLookup, jsToString]

/-- Counterexample to C3 as stated: the index.ts live-event branch
renders an object `eventDate` with " to ", not " - ". -/
theorem C3_counterexample :
    IndexTs.formatEventDateIx (.obj [("startDate", .str "2025-01-01"), ("endDate", .str "2025-01-02")]) =
      "2025-01-01 to 2025-01-02" ∧
    IndexTs.formatEventDateIx (.obj [("startDate", .str "2025-01-01"), ("endDate", .str "2025-01-02")]) ≠
      "2025-01-01 - 2025-01-02" := by
  refine ⟨rfl, by decide⟩

theorem rateUpdate_of_entry {st : RateMap} {ip : String} {k r t : Nat}
    (hst : st ip = some ⟨k, r⟩) (ht : t ≤ r) :
    rateUpdate st ip t = ⟨k + 1, r⟩ := by
  unfold rateUpdate
  rw [hst]
  simp [Option.getD]
  omega

theorem rateSet_same (st : RateMap) (ip : String) (e : RateEntry) :
    rateSet st ip e ip = some e := by
  simp [rateSet]

theorem rateRun_steady (ip : String) (r : Nat) :
    ∀ (ts : List Nat) (st : RateMap) (k : Nat),
      st ip = some ⟨k, r⟩ → (∀ t ∈ ts, t ≤ r) →
      (rateRun st ip ts).2 =
        (List.range ts.length).map (fun i => decide (k + i + 1 ≤ RATE_LIMIT_NUM))
      ∧ (rateRun st ip ts).1 ip = some ⟨k + ts.length, r⟩ := by
  intro ts
  induction ts with
  | nil =>
      intro st k hst _
      simpa [rateRun] using hst
  | cons t ts ih =>
      intro st k hst hts
      have he : rateUpdate st ip t = ⟨k + 1, r⟩ :=
        rateUpdate_of_entry hst (hts t (List.mem_cons_self t ts))
      have hst' : rateSet st ip (rateUpdate st ip t) ip = some ⟨k + 1, r⟩ := by
        rw [he]; exact rateSet_same _ _ _
      have hts' : ∀ u ∈ ts, u ≤ r := fun u hu => hts u (List.mem_cons_of_mem t hu)
      obtain ⟨ih1, ih2⟩ := ih (rateSet st ip (rateUpdate st ip t)) (k + 1) hst' hts'
      constructor
      · simp only [rateRun]
        rw [he] at ih1 ⊢
        rw [ih1]
        simp only [List.length_cons]
        rw [List.range_succ_eq_map, List.map_cons, List.map_map]
        have hfun : ((fun i => decide (k + i + 1 ≤ RATE_LIMIT_NUM)) ∘ Nat.succ) =
            (fun i => decide ((k + 1) + i + 1 ≤ RATE_LIMIT_NUM)) := by
          funext i
          show decide (k + (i + 1) + 1 ≤ RATE_LIMIT_NUM) = _
          have h9 : k + (i + 1) + 1 = (k + 1) + i + 1 := by omega
          rw [h9]
        rw [hfun]
      · simp only [rateRun]
        rw [he] at ih2 ⊢
        rw [ih2]
        have h9 : (k + 1) + ts.length = k + (t :: ts).length := by
          simp
          omega
        rw [h9]

theorem rateUpdate_of_none {st : RateMap} {ip : String} (t : Nat) (hst : st ip = none) :
    rateUpdate st ip t = ⟨1, t + RATE_LIMIT_WINDOW_MS⟩ := by
  unfold rateUpdate
  rw [hst]
  simp [Option.getD]

theorem validateRequest_rejected_status (apiKey : Option String) (req : HRequest)
    (s : Nat) (m : String) (h : validateRequest apiKey req = .rejected s m) :
    s = 400 ∨ s = 405 ∨ s = 401 := by
  unfold validateRequest at h
  repeat' split at h
  all_goals try cases h
  all_goals simp

theorem processData_status_ne_429 (sheetId nowIso : String) (data : JsVal) :
    (IndexTs.processData sheetId nowIso data).statusOf ≠ some 429 := by
  unfold IndexTs.processData
  repeat' split
  all_goals simp [IndexTs.IResult.statusOf]

theorem postValidate_status_ne_429 (env : IndexTs.Env) (iso : String) (req : HRequest) :
    (IndexTs.postValidate env iso req).statusOf ≠ some 429 := by
  unfold IndexTs.postValidate
  repeat' split
  all_goals first
    | exact processData_status_ne_429 _ _ _
    | simp [IndexTs.IResult.statusOf]

/-- C4: for a client with no stored entry, the first 10 requests
inside one 60000 ms fixed window pass the rate limiter and the 11th
and later requests in that window do not; the stored entry afterwards
holds the request count and the reset time of the first request plus
the window; once the wall clock strictly passes the stored reset time
the next request resets the counter to 1 and passes; and in the
handler a request whose updated count exceeds the limit receives
exactly the 429 response, while one within the limit never receives a
429 (it succeeds or fails on the later checks only). -/
theorem C4_rate_limit_window (ip : String) (t0 : Nat) (ts : List Nat) (st : RateMap)
    (h0 : st ip = none) (hts : ∀ t ∈ ts, t ≤ t0 + RATE_LIMIT_WINDOW_MS) :
    ((rateRun st ip (t0 :: ts)).2 =
        (List.range (ts.length + 1)).map (fun i => decide (i < RATE_LIMIT_NUM)))
    ∧ (rateRun st ip (t0 :: ts)).1 ip =
        some ⟨ts.length + 1, t0 + RATE_LIMIT_WINDOW_MS⟩
    ∧ (∀ t', t' > t0 + RATE_LIMIT_WINDOW_MS →
        rateUpdate ((rateRun st ip (t0 :: ts)).1) ip t' = ⟨1, t' + RATE_LIMIT_WINDOW_MS⟩ ∧
        (1 : Nat) ≤ RATE_LIMIT_NUM)
    ∧ (∀ (env : IndexTs.Env) (st2 : RateMap) (now : Nat) (iso : String) (req : HRequest),
        req.method ≠ "OPTIONS" →
        (rateUpdate st2 (req.xForwardedFor.getD "unknown") now).count > RATE_LIMIT_NUM →
        (IndexTs.handle env st2 now iso req).2 =
          .finished (.errResp 429 "Too many requests, please try again later" none))
    ∧ (∀ (env : IndexTs.Env) (st2 : RateMap) (now : Nat) (iso : String) (req : HRequest),
        (rateUpdate st2 (req.xForwardedFor.getD "unknown") now).count ≤ RATE_LIMIT_NUM →
        ((IndexTs.handle env st2 now iso req).2).statusOf ≠ some 429) := by
  have he0 : rateUpdate st ip t0 = ⟨1, t0 + RATE_LIMIT_WINDOW_MS⟩ :=
    rateUpdate_of_none t0 h0
  have hst1 : rateSet st ip (rateUpdate st ip t0) ip =
      some ⟨1, t0 + RATE_LIMIT_WINDOW_MS⟩ := by
    rw [he0]; exact rateSet_same _ _ _
  obtain ⟨hout, hfin⟩ :=
    rateRun_steady ip (t0 + RATE_LIMIT_WINDOW_MS) ts
      (rateSet st ip (rateUpdate st ip t0)) 1 hst1 hts
  refine ⟨?_, ?_, ?_, ?_, ?_⟩
  · simp only [rateRun]
    rw [hout, he0]
    rw [List.range_succ_eq_map, List.map_cons, List.map_map]
    have hfun : ((fun i => decide (i < RATE_LIMIT_NUM)) ∘ Nat.succ) =
        (fun i => decide (1 + i + 1 ≤ RATE_LIMIT_NUM)) := by
      funext i
      show decide (i + 1 + 1 ≤ RATE_LIMIT_NUM) = _
      have h9 : i + 1 + 1 = 1 + i + 1 := by omega
      rw [h9]
    rw [hfun]
    simp [RATE_LIMIT_NUM]
  · simp only [rateRun]
    rw [hfin]
    have h9 : 1 + ts.length = ts.length + 1 := by omega
    rw [h9]
  · intro t' ht'
    constructor
    · have hfin' : (rateRun st ip (t0 :: ts)).1 ip =
          some ⟨1 + ts.length, t0 + RATE_LIMIT_WINDOW_MS⟩ := by
        simp only [rateRun]
        exact hfin
      unfold rateUpdate
      rw [hfin']
      simp [Option.getD, ht']
    · decide
  · intro env st2 now iso req hm hc
    simp only [IndexTs.handle]
    rw [if_neg hm]
    simp only []
    rw [if_pos hc]
  · intro env st2 now iso req hc
    simp only [IndexTs.handle]
    by_cases hm : req.method = "OPTIONS"
    · rw [if_pos hm]
      simp [IndexTs.IResult.statusOf]
    · rw [if_neg hm]
      simp only []
      rw [if_neg (by omega)]
      cases hv : validateRequest env.anonKey req with
      | rejected s m =>
          rcases validateRequest_rejected_status env.anonKey req s m hv with h4 | h4 | h4 <;>
            simp [IndexTs.IResult.statusOf, h4]
      | okR => exact postValidate_status_ne_429 env iso req

/-- Concrete instantiation of the C4 theorem: eleven requests from a
fresh client inside one window yield ten passes followed by one
rejection. -/
theorem C4_witness :
    ((fun _ => (none : Option RateEntry)) "203.0.113.5" = none) ∧
    (∀ t ∈ List.replicate 10 (5 : Nat), t ≤ 0 + RATE_LIMIT_WINDOW_MS) ∧
    (rateRun (fun _ => none) "203.0.113.5" ((0 : Nat) :: List.replicate 10 5)).2 =
      (List.range ((List.replicate 10 (5 : Nat)).length + 1)).map
        (fun i => decide (i < RATE_LIMIT_NUM)) :=
  ⟨rfl, by decide,
    (C4_rate_limit_window "203.0.113.5" 0 (List.replicate 10 5) (fun _ => none)
      rfl (by decide)).1⟩

/-- C10: every non-OPTIONS request stores the updated rate entry for
its own client identifier (count incremented, or reset to 1 when the
window has elapsed, or initialised to 1 for a fresh client) in both
handler revisions, whatever response follows (including 400, 401, 405
and 429, since the stored map does not depend on the validation
outcome), and entries of all other client identifiers are unchanged. -/
theorem C10_rate_consumed_always (envIx : IndexTs.Env) (envP : Part001.Env)
    (st : RateMap) (now : Nat) (iso : String) (req : HRequest)
    (h : req.method ≠ "OPTIONS") :
    (IndexTs.handle envIx st now iso req).1 =
        rateSet st (req.xForwardedFor.getD "unknown")
          (rateUpdate st (req.xForwardedFor.getD "unknown") now)
    ∧ (Part001.handle envP st now iso req).1 =
        rateSet st (req.xForwardedFor.getD "unknown")
          (rateUpdate st (req.xForwardedFor.getD "unknown") now)
    ∧ ((rateUpdate st (req.xForwardedFor.getD "unknown") now).count =
        match st (req.xForwardedFor.getD "unknown") with
        | some d => if now > d.resetTime then 1 else d.count + 1
        | none => 1)
    ∧ (∀ k, k ≠ req.xForwardedFor.getD "unknown" →
        (IndexTs.handle envIx st now iso req).1 k = st k) := by
  have h1 : (IndexTs.handle envIx st now iso req).1 =
      rateSet st (req.xForwardedFor.getD "unknown")
        (rateUpdate st (req.xForwardedFor.getD "unknown") now) := by
    simp only [IndexTs.handle]
    rw [if_neg h]
  have h2 : (Part001.handle envP st now iso req).1 =
      rateSet st (req.xForwardedFor.getD "unknown")
        (rateUpdate st (req.xForwardedFor.getD "unknown") now) := by
    simp only [Part001.handle]
    rw [if_neg h]
  refine ⟨h1, h2, ?_, ?_⟩
  · cases hd : st (req.xForwardedFor.getD "unknown") with
    | none =>
        unfold rateUpdate
        rw [hd]
        simp only [Option.getD]
        split <;> rfl
    | some d =>
        unfold rateUpdate
        rw [hd]
        simp only [Option.getD]
        split <;> rfl
  · intro k hk
    rw [h1]
    simp [rateSet, hk]

/-- Concrete instantiation of the C10 theorem: a GET request (later
rejected with 405) still consumes rate-limit quota. -/
theorem C10_witness :
    (("GET" : String) ≠ "OPTIONS") ∧
    (IndexTs.handle ⟨some "k", some "S"⟩ (fun _ => none) 7 "T0"
        ⟨"GET", some "application/json", some "Bearer k", some "198.51.100.1", some []⟩).1 =
      rateSet (fun _ => none) "198.51.100.1"
        (rateUpdate (fun _ => none) "198.51.100.1" 7) :=
  ⟨by decide,
    (C10_rate_consumed_always ⟨some "k", some "S"⟩ ⟨some "k", some "S"⟩
      (fun _ => none) 7 "T0"
      ⟨"GET", some "application/json", some "Bearer k", some "198.51.100.1", some []⟩
      (by decide)).1⟩

theorem setCell_eq_self {s : SheetCells} {r c : Nat} {v : String} (h : s r c = v) :
    setCell s r c v = s := by
  funext i j
  unfold setCell
  split
  · rename_i hij
    rcases hij with ⟨rfl, rfl⟩
    exact h.symm
  · rfl

theorem writeHeadersFrom_other :
    ∀ (hs : List String) (s : SheetCells) (i a b : Nat),
      (a ≠ 0 ∨ b < i ∨ i + hs.length ≤ b) →
      writeHeadersFrom s i hs a b = s a b := by
  intro hs
  induction hs with
  | nil => intro s i a b _; rfl
  | cons h t ih =>
      intro s i a b hcond
      show writeHeadersFrom (setCell s 0 i h) (i + 1) t a b = s a b
      have hrec : writeHeadersFrom (setCell s 0 i h) (i + 1) t a b = setCell s 0 i h a b := by
        apply ih
        rcases hcond with hc | hc | hc
        · exact Or.inl hc
        · exact Or.inr (Or.inl (by omega))
        · exact Or.inr (Or.inr (by simp at hc; omega))
      rw [hrec]
      unfold setCell
      rw [if_neg]
      rintro ⟨rfl, rfl⟩
      rcases hcond with hc | hc | hc
      · exact hc rfl
      · omega
      · simp at hc

theorem writeHeadersFrom_at :
    ∀ (hs : List String) (s : SheetCells) (i k : Nat), k < hs.length →
      writeHeadersFrom s i hs 0 (i + k) = hs.getD k "" := by
  intro hs
  induction hs with
  | nil => intro s i k hk; simp at hk
  | cons h t ih =>
      intro s i k hk
      cases k with
      | zero =>
          show writeHeadersFrom (setCell s 0 i h) (i + 1) t 0 (i + 0) = h
          have hother : writeHeadersFrom (setCell s 0 i h) (i + 1) t 0 (i + 0) =
              setCell s 0 i h 0 (i + 0) :=
            writeHeadersFrom_other t _ (i + 1) 0 (i + 0) (Or.inr (Or.inl (by omega)))
          rw [hother]
          unfold setCell
          rw [if_pos ⟨rfl, by omega⟩]
      | succ k =>
          show writeHeadersFrom (setCell s 0 i h) (i + 1) t 0 (i + (k + 1)) = (h :: t).getD (k + 1) ""
          have harith : i + (k + 1) = (i + 1) + k := by omega
          rw [harith]
          have hrec := ih (setCell s 0 i h) (i + 1) k (by simpa using Nat.lt_of_succ_lt_succ hk)
          rw [hrec]
          rfl

theorem writeHeadersFrom_id :
    ∀ (hs : List String) (s : SheetCells) (i : Nat),
      (∀ k, k < hs.length → s 0 (i + k) = hs.getD k "") →
      writeHeadersFrom s i hs = s := by
  intro hs
  induction hs with
  | nil => intro s i _; rfl
  | cons h t ih =>
      intro s i hcells
      show writeHeadersFrom (setCell s 0 i h) (i + 1) t = s
      have h0 : s 0 i = h := by
        have := hcells 0 (by simp)
        simpa using this
      rw [setCell_eq_self h0]
      apply ih
      intro k hk
      have := hcells (k + 1) (by simpa using Nat.succ_lt_succ hk)
      have harith : i + (k + 1) = (i + 1) + k := by omega
      rw [harith] at this
      exact this

/-- C9: header-row creation is idempotent.  When cell (0,0) is empty,
`ensureSheetHasHeaders` writes the header list into row 0 and leaves
every other cell unchanged; when cell (0,0) is non-empty it changes
nothing; and running it twice leaves the sheet in the same state as
running it once. -/
theorem C9_ensure_sheet_headers (s : SheetCells) (headers : List String) :
    (s 0 0 ≠ "" → ensureSheetHasHeaders s headers = s)
    ∧ (s 0 0 = "" →
        (∀ k, k < headers.length →
          ensureSheetHasHeaders s headers 0 k = headers.getD k "") ∧
        (∀ a b, a ≠ 0 ∨ headers.length ≤ b →
          ensureSheetHasHeaders s headers a b = s a b))
    ∧ ensureSheetHasHeaders (ensureSheetHasHeaders s headers) headers =
        ensureSheetHasHeaders s headers := by
  refine ⟨?_, ?_, ?_⟩
  · intro h00
    unfold ensureSheetHasHeaders
    rw [if_neg h00]
  · intro h00
    constructor
    · intro k hk
      unfold ensureSheetHasHeaders
      rw [if_pos h00]
      have := writeHeadersFrom_at headers s 0 k hk
      simpa using this
    · intro a b hab
      unfold ensureSheetHasHeaders
      rw [if_pos h00]
      apply writeHeadersFrom_other
      rcases hab with hc | hc
      · exact Or.inl hc
      · exact Or.inr (Or.inr (by omega))
  · by_cases h00 : s 0 0 = ""
    · have h1 : ensureSheetHasHeaders s headers = writeHeadersFrom s 0 headers := by
        unfold ensureSheetHasHeaders
        rw [if_pos h00]
      rw [h1]
      by_cases ht : writeHeadersFrom s 0 headers 0 0 = ""
      · unfold ensureSheetHasHeaders
        rw [if_pos ht]
        apply writeHeadersFrom_id
        intro k hk
        have := writeHeadersFrom_at headers s 0 k hk
        simpa using this
      · unfold ensureSheetHasHeaders
        rw [if_neg ht]
    · have h1 : ensureSheetHasHeaders s headers = s := by
        unfold ensureSheetHasHeaders
        rw [if_neg h00]
      rw [h1, h1]

/-- Concrete instantiation of the C9 theorem: on an all-empty sheet,
ensuring the bulk-assessment headers writes "Name" into cell (0,0). -/
theorem C9_witness :
    ((fun _ _ => "" : SheetCells) 0 0 = "") ∧
    ensureSheetHasHeaders (fun _ _ => "") Part001.BULK_ASSESSMENT_HEADERS 0 0 =
      Part001.BULK_ASSESSMENT_HEADERS.getD 0 "" :=
  ⟨rfl,
    ((C9_ensure_sheet_headers (fun _ _ => "") Part001.BULK_ASSESSMENT_HEADERS).2.1 rfl).1
      0 (by decide)⟩

theorem string_mk_toList (s : String) : String.mk s.toList = s := rfl

theorem parseStringBody_escape :
    ∀ (cs rest : List Char),
      parseStringBody (escapeChars cs ++ '"' :: rest) = some (cs, rest) := by
  intro cs
  induction cs with
  | nil => intro rest; rfl
  | cons c cs ih =>
      intro rest
      show parseStringBody ((escapeChar c ++ escapeChars cs) ++ '"' :: rest) = _
      rw [List.append_assoc]
      by_cases h1 : c = '"'
      · subst h1
        simp [escapeChar, parseStringBody, unescapeChar, ih]
      · by_cases h2 : c = '\\'
        · subst h2
          simp [escapeChar, parseStringBody, unescapeChar, ih]
        · by_cases h3 : c = '\n'
          · subst h3
            simp [escapeChar, parseStringBody, unescapeChar, ih]
          · by_cases h4 : c = '\r'
            · subst h4
              simp [escapeChar, parseStringBody, unescapeChar, ih]
            · by_cases h5 : c = '\t'
              · subst h5
                simp [escapeChar, parseStringBody, unescapeChar, ih]
              · simp [escapeChar, h1, h2, h3, h4, h5, parseStringBody, ih]

theorem parseFields_encode :
    ∀ (fs : List (String × String)) (fuel : Nat) (rest : List Char),
      fs.length < fuel →
      parseFields fuel (encodeFieldsChars fs ++ '\x7d' :: rest) = some (fs, rest) := by
  intro fs
  induction fs with
  | nil =>
      intro fuel rest hf
      cases fuel with
      | zero => simp at hf
      | succ n => rfl
  | cons kv fs ih =>
      rcases kv with ⟨k, v⟩
      intro fuel rest hf
      cases fuel with
      | zero => simp at hf
      | succ n =>
          cases fs with
          | nil =>
              simp only [encodeFieldsChars, List.cons_append, List.append_assoc,
                List.singleton_append, List.nil_append]
              simp [parseFields, parseStringBody_escape, string_mk_toList]
          | cons kv2 fs2 =>
              have hrec := ih n rest (by simp at hf ⊢; omega)
              simp only [encodeFieldsChars, List.cons_append, List.append_assoc,
                List.singleton_append, List.nil_append]
              simp only [encodeFieldsChars] at hrec
              simp [parseFields, parseStringBody_escape, string_mk_toList, hrec]

theorem encodeFieldsChars_length (fs : List (String × String)) :
    fs.length ≤ (encodeFieldsChars fs).length := by
  induction fs with
  | nil => simp [encodeFieldsChars]
  | cons kv fs ih =>
      rcases kv with ⟨k, v⟩
      cases fs with
      | nil => simp [encodeFieldsChars]
      | cons kv2 fs2 =>
          simp only [encodeFieldsChars, List.length_cons, List.length_append] at ih ⊢
          omega

theorem toList_string_mk (l : List Char) : (String.mk l).toList = l := rfl

theorem jsonParse_encode_obj (fs : List (String × String)) :
    jsonParse (encodeCredJson (.jobj fs)) = some (.jobj fs) := by
  have hlen : fs.length < (encodeFieldsChars fs ++ ['\x7d']).length + 1 := by
    have h := encodeFieldsChars_length fs
    simp only [List.length_append, List.length_cons, List.length_nil]
    omega
  have hp := parseFields_encode fs ((encodeFieldsChars fs ++ ['\x7d']).length + 1) [] hlen
  simp [jsonParse, encodeCredJson, toList_string_mk] at hp ⊢
  rw [hp]

theorem jsonParse_encode_str (s : String) :
    jsonParse (encodeCredJson (.jstr s)) = some (.jstr s) := by
  simp [jsonParse, encodeCredJson, toList_string_mk, parseStringBody_escape,
    string_mk_toList]

/-- C8: credential resolution is invariant under one extra level of
JSON string encoding.  For any credential object (a string-fielded
JSON object) with non-empty `client_email` and `private_key` fields,
resolving the configuration holding the object encoded once and the
configuration holding it encoded twice yields the same credential
pair, namely those two fields. -/
theorem C8_double_encoding_invariant (fs : List (String × String)) (e k : String)
    (he : lookupField fs "client_email" = some e)
    (hk : lookupField fs "private_key" = some k)
    (hne : e ≠ "") (hnk : k ≠ "") :
    resolveEnvCreds (encodeCredJson (.jobj fs)) = some ⟨e, k⟩
    ∧ resolveEnvCreds (encodeCredJson (.jstr (encodeCredJson (.jobj fs)))) = some ⟨e, k⟩
    ∧ resolveEnvCreds (encodeCredJson (.jobj fs)) =
        resolveEnvCreds (encodeCredJson (.jstr (encodeCredJson (.jobj fs)))) := by
  have hextract : extractCreds (.jobj fs) = some ⟨e, k⟩ := by
    simp [extractCreds, he, hk, hne, hnk]
  have h1 : resolveEnvCreds (encodeCredJson (.jobj fs)) = some ⟨e, k⟩ := by
    simp [resolveEnvCreds, jsonParse_encode_obj, hextract]
  have h2 : resolveEnvCreds (encodeCredJson (.jstr (encodeCredJson (.jobj fs)))) =
      some ⟨e, k⟩ := by
    simp [resolveEnvCreds, jsonParse_encode_str, jsonParse_encode_obj, hextract]
  exact ⟨h1, h2, h1.trans h2.symm⟩

/-- Concrete instantiation of the C8 theorem on a three-field
service-account object. -/
theorem C8_witness :
    lookupField [("type", "service_account"), ("client_email", "svc@example.com"),
        ("private_key", "KEYDATA")] "client_email" = some "svc@example.com" ∧
    lookupField [("type", "service_account"), ("client_email", "svc@example.com"),
        ("private_key", "KEYDATA")] "private_key" = some "KEYDATA" ∧
    resolveEnvCreds (encodeCredJson (.jobj [("type", "service_account"),
        ("client_email", "svc@example.com"), ("private_key", "KEYDATA")])) =
      some ⟨"svc@example.com", "KEYDATA"⟩ ∧
    resolveEnvCreds (encodeCredJson (.jstr (encodeCredJson (.jobj [("type", "service_account"),
        ("client_email", "svc@example.com"), ("private_key", "KEYDATA")])))) =
      some ⟨"svc@example.com", "KEYDATA"⟩ := by
  have h := C8_double_encoding_invariant
    [("type", "service_account"), ("client_email", "svc@example.com"),
      ("private_key", "KEYDATA")]
    "svc@example.com" "KEYDATA" (by decide) (by decide) (by decide) (by decide)
  exact ⟨by decide, by decide, h.1, h.2.1⟩

theorem charsLeads_append_of (xs : List Char) :
    ∀ (ys zs : List Char), charsLeads xs ys = true → charsLeads xs (ys ++ zs) = true := by
  induction xs with
  | nil => intro ys zs _; rfl
  | cons a as ih =>
      intro ys zs h
      cases ys with
      | nil => simp [charsLeads] at h
      | cons b bs =>
          simp only [charsLeads, Bool.and_eq_true] at h
          simp only [List.cons_append, charsLeads, Bool.and_eq_true]
          exact ⟨h.1, ih bs zs h.2⟩

theorem strIncludes_of_append_extends {pre sub : String} (s : String)
    (h : charsLeads sub.toList pre.toList = true) :
    strIncludes (pre ++ s) sub = true := by
  unfold strIncludes
  rw [str_toList_append]
  exact charsHasSub_of_leads (charsLeads_append_of _ _ _ h)

theorem handleIx_result (env : IndexTs.Env) (st : RateMap) (now : Nat) (iso : String)
    (req : HRequest) (hm : req.method ≠ "OPTIONS")
    (hc : (rateUpdate st (req.xForwardedFor.getD "unknown") now).count ≤ RATE_LIMIT_NUM)
    (hv : validateRequest env.anonKey req = .okR) :
    (IndexTs.handle env st now iso req).2 = IndexTs.postValidate env iso req := by
  unfold IndexTs.handle
  rw [if_neg hm]
  show (if (rateUpdate st (req.xForwardedFor.getD "unknown") now).count > RATE_LIMIT_NUM
      then IndexTs.IResult.finished
        (.errResp 429 "Too many requests, please try again later" none)
      else match validateRequest env.anonKey req with
        | .rejected s m => IndexTs.IResult.finished (.errResp s m none)
        | .okR => IndexTs.postValidate env iso req) = IndexTs.postValidate env iso req
  rw [if_neg (by omega), hv]

theorem handleP_result (env : Part001.Env) (st : RateMap) (now : Nat) (iso : String)
    (req : HRequest) (hm : req.method ≠ "OPTIONS")
    (hc : (rateUpdate st (req.xForwardedFor.getD "unknown") now).count ≤ RATE_LIMIT_NUM)
    (hv : validateRequest env.anonKey req = .okR) :
    (Part001.handle env st now iso req).2 = Part001.postValidate env iso req := by
  unfold Part001.handle
  rw [if_neg hm]
  show (if (rateUpdate st (req.xForwardedFor.getD "unknown") now).count > RATE_LIMIT_NUM
      then Part001.PResult.finished
        (.errResp 429 "Too many requests, please try again later" none)
      else match validateRequest env.anonKey req with
        | .rejected s m => Part001.PResult.finished (.errResp s m none)
        | .okR => Part001.postValidate env iso req) = Part001.postValidate env iso req
  rw [if_neg (by omega), hv]

/-- C1 (amended): the part_001 formatters produce, for every data
object, a row whose column-name list is exactly the variant's
canonical header list (for live events, whenever formatting succeeds,
which its `referralInfo` reads require); the index.ts revision's
bulk-assessment row additionally carries a "Date" column that is not
in the canonical bulk-assessment header list (see the
counterexample). -/
theorem C1_normalizer_columns :
    (∀ (data : JsVal) (nowIso : String),
      (Part001.formatBulkAssessmentData data nowIso).map Prod.fst =
        Part001.BULK_ASSESSMENT_HEADERS)
    ∧ (∀ (data : JsVal) (nowIso : String) (row : List (String × JsVal)),
        Part001.formatLiveEventData data nowIso = .ok row →
        row.map Prod.fst = Part001.LIVE_EVENT_HEADERS)
    ∧ (∀ (data : JsVal) (nowIso : String),
      (Part001.formatUserSignupData data nowIso).map Prod.fst =
        Part001.USER_SIGNUP_HEADERS) := by
  refine ⟨fun data nowIso => rfl, ?_, fun data nowIso => rfl⟩
  intro data nowIso row h
  cases hv : jsGet data "referralInfo" <;>
    simp [Part001.formatLiveEventData, jsGetEx, hv] at h <;>
    rw [← h] <;> rfl

/-- Concrete instantiation of the live-event conjunct of the C1
theorem. -/
theorem C1_witness :
    ∃ row,
      Part001.formatLiveEventData
        (.obj [("dataType", .str "live-event"), ("name", .str "Jane"),
          ("email", .str "jane@example.com"), ("phoneNumber", .str "1-555"),
          ("estimatedAttendees", .num 25),
          ("referralInfo", .obj [("source", .str "Google"), ("moreInfo", .str "ad")])])
        "2025-01-01T00:00:00.000Z" = .ok row ∧
      row.map Prod.fst = Part001.LIVE_EVENT_HEADERS := by
  refine ⟨_, rfl, ?_⟩
  exact C1_normalizer_columns.2.1
    (.obj [("dataType", .str "live-event"), ("name", .str "Jane"),
      ("email", .str "jane@example.com"), ("phoneNumber", .str "1-555"),
      ("estimatedAttendees", .num 25),
      ("referralInfo", .obj [("source", .str "Google"), ("moreInfo", .str "ad")])])
    "2025-01-01T00:00:00.000Z" _ rfl

/-- Counterexample to C1 as stated: the index.ts bulk-assessment row
carries a "Date" column that is not in the canonical bulk-assessment
header list, so its column-name set is not exactly that list. -/
theorem C1_counterexample :
    ("Date" ∈ (IndexTs.bulkRow
        (.obj [("dataType", .str "bulk-assessment"), ("name", .str "A"),
          ("email", .str "a@b.c"), ("phoneNumber", .str "1"),
          ("numberOfAssessments", .num 2)])
        "2025-02-03T04:05:06.000Z").map Prod.fst)
    ∧ "Date" ∉ Part001.BULK_ASSESSMENT_HEADERS := by
  constructor
  · simp [IndexTs.bulkRow]
  · decide

/-- C2 (amended): in the index.ts handler, with a non-empty sheet id
configured (an unset or empty one is answered 500 before dispatch),
for the bulk-assessment and live-event variants a request whose data
object omits any one of that variant's required fields receives the
400 response whose error
message contains that field's name; the part_001 revision performs no
required-field check in any branch, and the user-signup variant (which
only that revision handles) is never checked (see the
counterexample). -/
theorem C2_missing_required_field (env : IndexTs.Env) (st : RateMap) (now : Nat)
    (iso : String) (req : HRequest) (body : List (String × JsVal))
    (sid dt : String) (reqd : List String) (f : String)
    (hm : req.method = "POST")
    (hv : validateRequest env.anonKey req = .okR)
    (hc : (rateUpdate st (req.xForwardedFor.getD "unknown") now).count ≤ RATE_LIMIT_NUM)
    (hb : req.body = some body)
    (htr : jsTruthy (jsLookup body "data") = true)
    (hsid : env.colorworksSheetId = some sid) (hsne : sid ≠ "")
    (hdt : jsGet (jsLookup body "data") "dataType" = .str dt)
    (hvar : (dt = "bulk-assessment" ∧ reqd = IndexTs.bulkRequiredFields) ∨
            (dt = "live-event" ∧ reqd = IndexTs.liveRequiredFields))
    (hf : f ∈ reqd)
    (hmiss : jsHasKey (jsLookup body "data") f = false) :
    ∃ msg, (IndexTs.handle env st now iso req).2 = .finished (.errResp 400 msg none) ∧
      strIncludes msg f = true := by
  have hm' : req.method ≠ "OPTIONS" := by rw [hm]; decide
  rw [handleIx_result env st now iso req hm' hc hv]
  have hpost : IndexTs.postValidate env iso req =
      IndexTs.processData sid iso (jsLookup body "data") := by
    simp [IndexTs.postValidate, hb, htr, hsid, hsne]
  rw [hpost]
  rcases hvar with ⟨rfl, rfl⟩ | ⟨rfl, rfl⟩
  · have hmem : f ∈ IndexTs.bulkRequiredFields.filter
        (fun g => !(jsHasKey (jsLookup body "data") g)) :=
      List.mem_filter.mpr ⟨hf, by rw [hmiss]; rfl⟩
    have hlen : 0 < (IndexTs.bulkRequiredFields.filter
        (fun g => !(jsHasKey (jsLookup body "data") g))).length :=
      List.length_pos.mpr (List.ne_nil_of_mem hmem)
    refine ⟨"Missing required fields: " ++ joinSep ", " (IndexTs.bulkRequiredFields.filter
        (fun g => !(jsHasKey (jsLookup body "data") g))), ?_, ?_⟩
    · simp [IndexTs.processData, hdt, hlen]
    · exact strIncludes_append_right _ (joinSep_mem_includes ", " hmem)
  · have hmem : f ∈ IndexTs.liveRequiredFields.filter
        (fun g => !(jsHasKey (jsLookup body "data") g)) :=
      List.mem_filter.mpr ⟨hf, by rw [hmiss]; rfl⟩
    have hlen : 0 < (IndexTs.liveRequiredFields.filter
        (fun g => !(jsHasKey (jsLookup body "data") g))).length :=
      List.length_pos.mpr (List.ne_nil_of_mem hmem)
    refine ⟨"Missing required fields: " ++ joinSep ", " (IndexTs.liveRequiredFields.filter
        (fun g => !(jsHasKey (jsLookup body "data") g))), ?_, ?_⟩
    · simp [IndexTs.processData, hdt, hlen]
    · exact strIncludes_append_right _ (joinSep_mem_includes ", " hmem)

/-- Concrete instantiation of the C2 theorem: a bulk-assessment
request omitting `name` receives a 400 whose message contains
"name". -/
theorem C2_witness :
    validateRequest (some "k")
      ⟨"POST", some "application/json", some "Bearer k", some "9.9.9.9",
        some [("data", .obj [("dataType", .str "bulk-assessment")])]⟩ = .okR ∧
    jsHasKey (jsLookup [("data", JsVal.obj [("dataType", JsVal.str "bulk-assessment")])] "data")
      "name" = false ∧
    ∃ msg,
      (IndexTs.handle ⟨some "k", some "S"⟩ (fun _ => none) 0 "2025-01-01T00:00:00.000Z"
        ⟨"POST", some "application/json", some "Bearer k", some "9.9.9.9",
          some [("data", .obj [("dataType", .str "bulk-assessment")])]⟩).2 =
        .finished (.errResp 400 msg none) ∧
      strIncludes msg "name" = true :=
  ⟨rfl, rfl,
    C2_missing_required_field ⟨some "k", some "S"⟩ (fun _ => none) 0
      "2025-01-01T00:00:00.000Z"
      ⟨"POST", some "application/json", some "Bearer k", some "9.9.9.9",
        some [("data", .obj [("dataType", .str "bulk-assessment")])]⟩
      [("data", .obj [("dataType", .str "bulk-assessment")])]
      "S" "bulk-assessment" IndexTs.bulkRequiredFields "name"
      rfl rfl (by decide) rfl rfl rfl (by decide) rfl (Or.inl ⟨rfl, rfl⟩) (by decide) rfl⟩

/-- Counterexample to C2 as stated: in the part_001 handler, a
user-signup request omitting `email` is not answered with a 400 naming
the field; no required-field check runs and the pipeline proceeds to
the sink with an undefined Email cell. -/
theorem C2_counterexample :
    jsHasKey (JsVal.obj [("dataType", JsVal.str "user-signup")]) "email" = false ∧
    (Part001.handle ⟨some "k", some "SHEET"⟩ (fun _ => none) 0 "2025-01-01T00:00:00.000Z"
        ⟨"POST", some "application/json", some "Bearer k", some "9.9.9.9",
          some [("data", .obj [("dataType", .str "user-signup")])]⟩).2 =
      .proceed (.str "SHEET") (.str "User Signups") Part001.USER_SIGNUP_HEADERS
        (.obj [("Email", .undefined), ("First Name", .str ""), ("Last Name", .str ""),
          ("Created Date", .undefined),
          ("Signup Date", .str "2025-01-01T00:00:00.000Z")]) :=
  ⟨rfl, rfl⟩

/-- C6 (amended): in the part_001 handler, the destination sheet
identifier is the one supplied in the request body when that value is
truthy; otherwise it is the configured default; and when the request
supplies none and the configuration is absent or empty, the handler
returns the 400 "no sheet ID" response, a finished outcome that never
reaches the sink.  The index.ts revision instead ignores a
request-supplied sheet id and returns 500 when its configured value is
absent (see the counterexample). -/
theorem C6_sheet_id_resolution (env : Part001.Env) (st : RateMap) (now : Nat)
    (iso : String) (req : HRequest) (body : List (String × JsVal))
    (hm : req.method = "POST")
    (hv : validateRequest env.anonKey req = .okR)
    (hc : (rateUpdate st (req.xForwardedFor.getD "unknown") now).count ≤ RATE_LIMIT_NUM)
    (hb : req.body = some body) :
    (jsTruthy (jsLookup body "sheetId") = true →
      (Part001.handle env st now iso req).2 =
        Part001.dataStage (jsLookup body "sheetId") iso body)
    ∧ (∀ d, jsTruthy (jsLookup body "sheetId") = false → env.defaultSheetId = some d →
        d ≠ "" →
        (Part001.handle env st now iso req).2 = Part001.dataStage (.str d) iso body)
    ∧ (jsTruthy (jsLookup body "sheetId") = false →
        (env.defaultSheetId = none ∨ env.defaultSheetId = some "") →
        (Part001.handle env st now iso req).2 =
          .finished (.errResp 400
            "No sheet ID provided in request and no default sheet ID configured in environment"
            none)) := by
  have hm' : req.method ≠ "OPTIONS" := by rw [hm]; decide
  have hstage := handleP_result env st now iso req hm' hc hv
  refine ⟨?_, ?_, ?_⟩
  · intro h1
    rw [hstage]
    simp [Part001.postValidate, hb, jsOr, h1]
  · intro d h1 hd hne
    rw [hstage]
    have htd : jsTruthy (JsVal.str d) = true := by
      simp [jsTruthy, hne]
    simp [Part001.postValidate, hb, jsOr, h1, Part001.defaultSheetVal, hd, htd]
  · intro h1 hd
    rw [hstage]
    have hu : jsTruthy JsVal.undefined = false := rfl
    have hes : jsTruthy (JsVal.str "") = false := rfl
    rcases hd with hd | hd <;>
      simp [Part001.postValidate, hb, jsOr, h1, Part001.defaultSheetVal, hd, hu, hes]

/-- Concrete instantiation of the C6 theorem: with no sheet id in the
request, the configured default is used. -/
theorem C6_witness :
    jsTruthy (jsLookup [("data", JsVal.obj [("dataType", JsVal.str "user-signup"),
        ("email", JsVal.str "e@x.y")])] "sheetId") = false ∧
    (Part001.handle ⟨some "k", some "DEF"⟩ (fun _ => none) 0 "2025-01-01T00:00:00.000Z"
        ⟨"POST", some "application/json", some "Bearer k", some "9.9.9.9",
          some [("data", .obj [("dataType", .str "user-signup"),
            ("email", .str "e@x.y")])]⟩).2 =
      Part001.dataStage (.str "DEF") "2025-01-01T00:00:00.000Z"
        [("data", .obj [("dataType", .str "user-signup"), ("email", .str "e@x.y")])] :=
  ⟨rfl,
    (C6_sheet_id_resolution ⟨some "k", some "DEF"⟩ (fun _ => none) 0
      "2025-01-01T00:00:00.000Z"
      ⟨"POST", some "application/json", some "Bearer k", some "9.9.9.9",
        some [("data", .obj [("dataType", .str "user-signup"), ("email", .str "e@x.y")])]⟩
      [("data", .obj [("dataType", .str "user-signup"), ("email", .str "e@x.y")])]
      rfl rfl (by decide) rfl).2.1 "DEF" rfl rfl (by decide)⟩

/-- Counterexample to C6 as stated: the index.ts handler returns 500
(not 400, and without using a request-supplied identifier) whenever
its configured sheet id is absent, both when the request supplies a
sheet id and when it does not. -/
theorem C6_counterexample :
    jsTruthy (jsLookup [("sheetId", JsVal.str "REQ-SHEET"),
        ("data", JsVal.obj [("dataType", JsVal.str "bulk-assessment"),
          ("name", JsVal.str "A"), ("email", JsVal.str "a@b.c"),
          ("phoneNumber", JsVal.str "1"), ("numberOfAssessments", JsVal.num 2)])]
        "sheetId") = true ∧
    (IndexTs.handle ⟨some "k", none⟩ (fun _ => none) 0 "2025-01-01T00:00:00.000Z"
        ⟨"POST", some "application/json", some "Bearer k", some "9.9.9.9",
          some [("sheetId", .str "REQ-SHEET"),
            ("data", .obj [("dataType", .str "bulk-assessment"), ("name", .str "A"),
              ("email", .str "a@b.c"), ("phoneNumber", .str "1"),
              ("numberOfAssessments", .num 2)])]⟩).2 =
      .finished (.errResp 500 "Server configuration error: Missing sheet ID" none) ∧
    (IndexTs.handle ⟨some "k", none⟩ (fun _ => none) 0 "2025-01-01T00:00:00.000Z"
        ⟨"POST", some "application/json", some "Bearer k", some "9.9.9.9",
          some [("data", .obj [("dataType", .str "bulk-assessment"), ("name", .str "A"),
            ("email", .str "a@b.c"), ("phoneNumber", .str "1"),
            ("numberOfAssessments", .num 2)])]⟩).2 =
      .finished (.errResp 500 "Server configuration error: Missing sheet ID" none) ∧
    (500 : Nat) ≠ 400 :=
  ⟨rfl, rfl, rfl, by decide⟩

/-- C7 (amended): in the index.ts handler, with a non-empty sheet id
configured (an unset or empty one is answered 500 before dispatch), a
data object whose
`dataType` is a string outside the recognized variants (which in that
revision are only bulk-assessment and live-event, so even user-signup
falls here) receives the 400 response "Unknown data type: <value>",
whose message contains "Unknown data type"; and a request body with no
(truthy) `data` property receives a 400 response carrying the list of
top-level keys that were received.  The part_001 revision instead
answers "Invalid data type" and a fixed message without the key list
(see the counterexample). -/
theorem C7_unknown_type_missing_data (env : IndexTs.Env) (st : RateMap) (now : Nat)
    (iso : String) (req : HRequest) (body : List (String × JsVal)) (sid s : String)
    (hm : req.method = "POST")
    (hv : validateRequest env.anonKey req = .okR)
    (hc : (rateUpdate st (req.xForwardedFor.getD "unknown") now).count ≤ RATE_LIMIT_NUM)
    (hb : req.body = some body) :
    (jsTruthy (jsLookup body "data") = true →
      env.colorworksSheetId = some sid → sid ≠ "" →
      jsGet (jsLookup body "data") "dataType" = .str s →
      s ≠ "bulk-assessment" → s ≠ "live-event" →
      (IndexTs.handle env st now iso req).2 =
        .finished (.errResp 400 ("Unknown data type: " ++ s) none) ∧
      strIncludes ("Unknown data type: " ++ s) "Unknown data type" = true)
    ∧ (jsTruthy (jsLookup body "data") = false →
      (IndexTs.handle env st now iso req).2 =
        .finished (.errResp 400 "Missing required property: data"
          (some (body.map Prod.fst)))) := by
  have hm' : req.method ≠ "OPTIONS" := by rw [hm]; decide
  have hstage := handleIx_result env st now iso req hm' hc hv
  constructor
  · intro htr hsid hsne hdt hs1 hs2
    constructor
    · rw [hstage]
      have hpost : IndexTs.postValidate env iso req =
          IndexTs.processData sid iso (jsLookup body "data") := by
        simp [IndexTs.postValidate, hb, htr, hsid, hsne]
      rw [hpost]
      simp [IndexTs.processData, hdt, hs1, hs2, jsToString]
    · exact strIncludes_of_append_extends s (by decide)
  · intro htr
    rw [hstage]
    simp [IndexTs.postValidate, hb, htr]

/-- Concrete instantiation of the C7 theorem: the index.ts handler
answers a user-signup request with 400 "Unknown data type:
user-signup". -/
theorem C7_witness :
    jsGet (jsLookup [("data", JsVal.obj [("dataType", JsVal.str "user-signup"),
        ("email", JsVal.str "e@x.y")])] "data") "dataType" = JsVal.str "user-signup" ∧
    (IndexTs.handle ⟨some "k", some "S"⟩ (fun _ => none) 0 "2025-01-01T00:00:00.000Z"
        ⟨"POST", some "application/json", some "Bearer k", some "9.9.9.9",
          some [("data", .obj [("dataType", .str "user-signup"),
            ("email", .str "e@x.y")])]⟩).2 =
      .finished (.errResp 400 "Unknown data type: user-signup" none) ∧
    strIncludes "Unknown data type: user-signup" "Unknown data type" = true :=
  ⟨rfl,
    ((C7_unknown_type_missing_data ⟨some "k", some "S"⟩ (fun _ => none) 0
      "2025-01-01T00:00:00.000Z"
      ⟨"POST", some "application/json", some "Bearer k", some "9.9.9.9",
        some [("data", .obj [("dataType", .str "user-signup"), ("email", .str "e@x.y")])]⟩
      [("data", .obj [("dataType", .str "user-signup"), ("email", .str "e@x.y")])]
      "S" "user-signup" rfl rfl (by decide) rfl).1 rfl rfl (by decide) rfl (by decide) (by decide)).1,
    ((C7_unknown_type_missing_data ⟨some "k", some "S"⟩ (fun _ => none) 0
      "2025-01-01T00:00:00.000Z"
      ⟨"POST", some "application/json", some "Bearer k", some "9.9.9.9",
        some [("data", .obj [("dataType", .str "user-signup"), ("email", .str "e@x.y")])]⟩
      [("data", .obj [("dataType", .str "user-signup"), ("email", .str "e@x.y")])]
      "S" "user-signup" rfl rfl (by decide) rfl).1 rfl rfl (by decide) rfl (by decide) (by decide)).2⟩

/-- Counterexample to C7 as stated: the part_001 handler answers an
unknown `dataType` with "Invalid data type" (which does not contain
"Unknown data type"), and an absent `data` property with a fixed
message carrying no list of received keys. -/
theorem C7_counterexample :
    (Part001.handle ⟨some "k", some "S"⟩ (fun _ => none) 0 "2025-01-01T00:00:00.000Z"
        ⟨"POST", some "application/json", some "Bearer k", some "9.9.9.9",
          some [("data", .obj [("dataType", .str "bogus")])]⟩).2 =
      .finished (.errResp 400 "Invalid data type" none) ∧
    strIncludes "Invalid data type" "Unknown data type" = false ∧
    (Part001.handle ⟨some "k", some "S"⟩ (fun _ => none) 0 "2025-01-01T00:00:00.000Z"
        ⟨"POST", some "application/json", some "Bearer k", some "9.9.9.9",
          some [("foo", .num 1), ("bar", .str "x")]⟩).2 =
      .finished (.errResp 400 "Missing or invalid parameter: data should be an object"
        none) :=
  ⟨rfl, by decide, rfl⟩

end AtlasSheets
